import Mathlib

set_option maxHeartbeats 1000000
set_option maxRecDepth 4000

/-!
Verification of the cfggen template-resolution engine.

The Python data model is embedded shallowly: scalars, ordered sequences
(lists and tuples kept distinct), and insertion-ordered string-keyed
mappings represented as association lists.  Python floats are modelled as
rationals.  The stateful resolver is embedded as a fuel-indexed function
threading an explicit state record; fallible code returns Except.
-/

namespace Cfggen

/-- Python values as they occur in templates: None, bool, int, float
(modelled as a rational), str, list, tuple, and dict (insertion-ordered
association list with string keys). -/
inductive Value where
  | none
  | bool (b : Bool)
  | int (n : Int)
  | float (q : Rat)
  | str (s : String)
  | list (xs : List Value)
  | tuple (xs : List Value)
  | dict (entries : List (String × Value))

instance : Inhabited Value := ⟨Value.none⟩

/-- Failures raised by the engine.  Python raises bare Exception with a
message, plus builtin KeyError, TypeError, AssertionError, ValueError and
IndexError; these are modelled as separate constructors.  fuelOut is an
artifact of the fuel-indexed embedding only. -/
inductive Err where
  | fuelOut
  | cycle (key : String)
  | keyError (key : String)
  | typeError
  | assertionFailed
  | invalidRange
  | invalidProduct
  | invalidEnvParam
  | unknownType (t : Value)
  | envKeyNotFound (key : Value)
  | valueError
  | indexError

/-- The message text attached to each failure, following the format
strings in the source. -/
def errMessage : Err → String
  | .fuelOut => "out of fuel"
  | .cycle key => "Ref cycle detected: " ++ key
  | .keyError key => "KeyError: " ++ key
  | .typeError => "TypeError"
  | .assertionFailed => "AssertionError"
  | .invalidRange => "Invalid argument for range"
  | .invalidProduct => "Invalid argument of product"
  | .invalidEnvParam => "Invalid $env parameter, use string or a dictionary"
  | .unknownType (.str t) => "Unknown type " ++ t
  | .unknownType _ => "Unknown type"
  | .envKeyNotFound (.str key) =>
      "Key " ++ key ++ " not found in environment and no default was provided"
  | .envKeyNotFound _ => "Key not found in environment and no default was provided"
  | .valueError => "ValueError"
  | .indexError => "IndexError"

/-- Association-list lookup, modelling Python dict lookup (first match;
Python dict keys are unique). -/
def alookup (k : String) : List (String × Value) → Option Value
  | [] => none
  | (k₁, v) :: rest => if k₁ = k then some v else alookup k rest

/-- Association-list lookup for the string-to-string environment map. -/
def alookupS (k : String) : List (String × String) → Option String
  | [] => none
  | (k₁, v) :: rest => if k₁ = k then some v else alookupS k rest

/-- Python dict item assignment: an existing key keeps its position and
gets the new value, a fresh key is appended. -/
def aset (k : String) (v : Value) : List (String × Value) → List (String × Value)
  | [] => [(k, v)]
  | (k₁, v₁) :: rest => if k₁ = k then (k, v) :: rest else (k₁, v₁) :: aset k v rest

/-- Python set.add on the resolving set (modelled as a list without
duplicates). -/
def setAdd (l : List String) (k : String) : List String :=
  if k ∈ l then l else k :: l

/-- Python identity test against None. -/
def Value.isNull : Value → Bool
  | .none => true
  | _ => false

/-- The element list of a list or tuple; none for every other value.
This is the shape accepted by the source helper is-list-like. -/
def seqElems : Value → Option (List Value)
  | .list xs => some xs
  | .tuple xs => some xs
  | _ => none

/-- The source helper testing isinstance list or tuple. -/
def isListLike (v : Value) : Bool := (seqElems v).isSome

/-- Elements of a value already known to be list-like. -/
def listElems (v : Value) : List Value := (seqElems v).getD []

/-- Rebuild a sequence with the same concrete kind (list versus tuple) as
the given value, modelling the source calling the original constructor. -/
def withElems (v : Value) (xs : List Value) : Value :=
  match v with
  | .tuple _ => .tuple xs
  | _ => .list xs

/-- Python iteration: strings yield their one-character substrings, lists
and tuples their elements, dicts their keys; every other value is not
iterable. -/
def pyIter : Value → Option (List Value)
  | .str s => some (s.data.map (fun c => .str (String.mk [c])))
  | .list xs => some xs
  | .tuple xs => some xs
  | .dict es => some (es.map (fun e => .str e.1))
  | _ => none

/-- isinstance check against collections.abc.Iterable. -/
def isIterable (v : Value) : Bool := (pyIter v).isSome

/-- The iteration sequence of a value known to be iterable. -/
def pyIterD (v : Value) : List Value := (pyIter v).getD []

/-- isinstance check against list. -/
def isList : Value → Bool
  | .list _ => true
  | _ => false

/-- isinstance check against tuple. -/
def isTuple : Value → Bool
  | .tuple _ => true
  | _ => false

/-- The number of elements of a Python range with the given start, stop
and step (step assumed nonzero). -/
def pyRangeLen (start stop step : Int) : Nat :=
  if 0 < step then (if start < stop then ((stop - start - 1) / step + 1).toNat else 0)
  else if step < 0 then (if stop < start then ((start - stop - 1) / (-step) + 1).toNat else 0)
  else 0

/-- Eagerly materialized Python range, as the source does with
list(range(...)). -/
def pyRangeList (start stop step : Int) : List Value :=
  (List.range (pyRangeLen start stop step)).map (fun i => .int (start + step * i))

/-- Python int coercion of range arguments: bools are ints (False is 0,
True is 1); anything else is rejected with a TypeError by range. -/
def toIntArg : Value → Option Int
  | .bool b => some (if b then 1 else 0)
  | .int n => some n
  | _ => none

/-- The per-build resolution state of the source: the unresolved toplevel
value, the memoization cache, the set of keys currently being resolved,
and the environment map.  The trace field is pure instrumentation added
by the embedding: it records, in order, each key whose toplevel entry the
ref operator actually resolves (the recursive call on state.toplevel of
that key); it never influences any computed value. -/
structure St where
  toplevel : Value
  computed : List (String × Value)
  resolving : List String
  environment : List (String × String)
  trace : List String

/-- Python dict indexing on the toplevel value: a missing key raises
KeyError, indexing a non-dict with a string raises TypeError. -/
def topGet (v : Value) (k : String) : Except Err Value :=
  match v with
  | .dict es =>
    match alookup k es with
    | some x => .ok x
    | none => .error (.keyError k)
  | _ => .error .typeError

/-- itertools.product over the given element lists: all combinations,
first factor varying slowest and last factor varying fastest. -/
def cartesian : List (List Value) → List (List Value)
  | [] => [[]]
  | l :: ls => l.flatMap (fun x => (cartesian ls).map (fun c => x :: c))

/-- Length of the shortest of a nonempty family of lists. -/
def minLen : List (List Value) → Nat
  | [] => 0
  | l :: ls => ls.foldl (fun m l₁ => Nat.min m l₁.length) l.length

/-- Python zip over the given element lists: elementwise combination
truncated to the shortest input; zip of no iterables is empty. -/
def zipN (ls : List (List Value)) : List (List Value) :=
  match ls with
  | [] => []
  | _ :: _ => (List.range (minLen ls)).map (fun i => ls.map (fun l => l.getD i Value.none))

/-- The dispatch keys of OPS_SWITCH. -/
def opKeys : List String := ["$ref", "$range", "$+", "$product", "$zip", "$env"]

/-- The names accepted by the env operator type field (the keys of
ENV_CONSTRUCTORS). -/
def envTypes : List String := ["str", "int", "float", "bool"]

/-- Decimal digits to a natural number. -/
def natFromDigits (l : List Char) : Nat :=
  l.foldl (fun a c => a * 10 + (c.toNat - 48)) 0

/-- Whitespace as stripped by Python number parsing. -/
def isSpaceChar (c : Char) : Bool :=
  c = ' ' || c = '\t' || c = '\n' || c = '\r'

/-- Strip surrounding whitespace from the characters of a string. -/
def stripChars (s : String) : List Char :=
  ((s.data.dropWhile isSpaceChar).reverse.dropWhile isSpaceChar).reverse

/-- Python int applied to a string: surrounding whitespace stripped, an
optional sign followed by at least one digit; anything else raises
ValueError (modelled as a parse failure). -/
def pyParseInt (s : String) : Option Int :=
  let t := stripChars s
  let core : List Char × Int :=
    match t with
    | '-' :: rest => (rest, -1)
    | '+' :: rest => (rest, 1)
    | l => (l, 1)
  if core.1 ≠ [] ∧ core.1.all Char.isDigit then
    some (core.2 * (natFromDigits core.1 : Int))
  else none

/-- Split a character list at the first exponent marker. -/
def splitOnE (l : List Char) : List Char × Option (List Char) :=
  match l.span (fun c => !(c = 'e' || c = 'E')) with
  | (pre, []) => (pre, none)
  | (pre, _ :: rest) => (pre, some rest)

/-- Mantissa of a Python float literal: digits with an optional fraction
part, at least one digit overall. -/
def parseMantissa (l : List Char) : Option Rat :=
  match l.span Char.isDigit with
  | (intPart, []) =>
    if intPart ≠ [] then some ((natFromDigits intPart : Int) : Rat) else none
  | (intPart, '.' :: frac) =>
    if frac.all Char.isDigit ∧ (intPart ≠ [] ∨ frac ≠ []) then
      some ((natFromDigits intPart : Rat) + (natFromDigits frac : Rat) / ((10 : Rat) ^ frac.length))
    else none
  | _ => none

/-- Exponent of a Python float literal: optional sign and digits. -/
def parseExp (l : List Char) : Option Int :=
  match l with
  | '-' :: rest =>
    if rest ≠ [] ∧ rest.all Char.isDigit then some (-(natFromDigits rest : Int)) else none
  | '+' :: rest =>
    if rest ≠ [] ∧ rest.all Char.isDigit then some (natFromDigits rest : Int) else none
  | rest =>
    if rest ≠ [] ∧ rest.all Char.isDigit then some (natFromDigits rest : Int) else none

/-- Python float applied to a string, modelled over the rationals:
whitespace stripped, optional sign, decimal mantissa, optional exponent
(the special spellings inf and nan are outside the model). -/
def pyParseFloat (s : String) : Option Rat :=
  let t := stripChars s
  let core : List Char × Rat :=
    match t with
    | '-' :: rest => (rest, -1)
    | '+' :: rest => (rest, 1)
    | l => (l, 1)
  match splitOnE core.1 with
  | (mant, none) =>
    match parseMantissa mant with
    | some q => some (core.2 * q)
    | none => none
  | (mant, some ex) =>
    match parseMantissa mant, parseExp ex with
    | some q, some e => some (core.2 * q * (10 : Rat) ^ e)
    | _, _ => none

/-- Application of an ENV_CONSTRUCTORS entry to the raw string value from
the environment: str is the identity, int and float parse (ValueError on
failure), bool is Python string truthiness (nonempty). -/
def applyCtor (c : String) (s : String) : Except Err Value :=
  if c = "str" then .ok (.str s)
  else if c = "int" then
    match pyParseInt s with
    | some n => .ok (.int n)
    | none => .error .valueError
  else if c = "float" then
    match pyParseFloat s with
    | some q => .ok (.float q)
    | none => .error .valueError
  else if c = "bool" then .ok (.bool (!s.isEmpty))
  else .error .valueError

mutual

/-- Python hashability of a value: scalars are hashable, lists and dicts
are not, and a tuple is hashable exactly when all of its elements are. -/
def pyHashable : Value → Bool
  | .none => true
  | .bool _ => true
  | .int _ => true
  | .float _ => true
  | .str _ => true
  | .tuple xs => pyHashableList xs
  | .list _ => false
  | .dict _ => false

/-- Hashability of every element of a list of values. -/
def pyHashableList : List Value → Bool
  | [] => true
  | x :: xs => pyHashable x && pyHashableList xs

end

/-- Environment lookup with a name taken from the template, modelling
state.environment.get(name): dict.get hashes its key first, so an
unhashable name (a list, a dict, or a tuple with an unhashable element)
raises TypeError; a hashable non-string key finds nothing in a
string-keyed environment map; a string key is looked up. -/
def envGet (env : List (String × String)) (nameV : Value) : Except Err (Option String) :=
  match nameV with
  | .str k => .ok (alookupS k env)
  | .list _ => .error .typeError
  | .dict _ => .error .typeError
  | .tuple xs => if pyHashableList xs then .ok none else .error .typeError
  | _ => .ok none

/-- The range operator: an int (or bool, since Python bools are ints)
argument produces 0..n-1; a list-like argument of length 2 or 3 is
splatted into range; any other shape raises the invalid-argument
exception; non-int range bounds raise TypeError and a zero step
ValueError, as in Python.  It never resolves its argument. -/
def resolveRange (st : St) (args : Value) : Except Err (Value × St) :=
  match args with
  | .bool b => .ok (.list (pyRangeList 0 (if b then 1 else 0) 1), st)
  | .int n => .ok (.list (pyRangeList 0 n 1), st)
  | _ =>
    match seqElems args with
    | some [a, b] =>
      match toIntArg a, toIntArg b with
      | some x, some y => .ok (.list (pyRangeList x y 1), st)
      | _, _ => .error .typeError
    | some [a, b, c] =>
      match toIntArg a, toIntArg b, toIntArg c with
      | some x, some y, some z =>
        if z = 0 then .error .valueError else .ok (.list (pyRangeList x y z), st)
      | _, _, _ => .error .typeError
    | _ => .error .invalidRange

/-- The env operator, following the source line by line: a bare string is
the name with no default and type str; a dict supplies name (KeyError if
missing), an optional default (dict get, absent meaning None) and an
optional type which must name an ENV_CONSTRUCTORS entry (checked before
the environment lookup); then the name is looked up in the environment
map, an absent name returns the default unless the default is None, and
a present name has the selected constructor applied to its raw string
value.  It never resolves its argument. -/
def resolveEnv (st : St) (args : Value) : Except Err (Value × St) :=
  match args with
  | .str key =>
    match alookupS key st.environment with
    | some v =>
      match applyCtor "str" v with
      | .ok r => .ok (r, st)
      | .error e => .error e
    | none => .error (.envKeyNotFound (.str key))
  | .dict es =>
    match alookup "name" es with
    | none => .error (.keyError "name")
    | some nameV =>
      let default := (alookup "default" es).getD Value.none
      match (alookup "type" es).getD (Value.str "str") with
      | .str c =>
        if c ∈ envTypes then
          match envGet st.environment nameV with
          | .error e => .error e
          | .ok none =>
            if default.isNull then .error (.envKeyNotFound nameV)
            else .ok (default, st)
          | .ok (some v) =>
            match applyCtor c v with
            | .ok r => .ok (r, st)
            | .error e => .error e
        else .error (.unknownType (.str c))
      | .list _ => .error .typeError
      | .dict _ => .error .typeError
      | other => .error (.unknownType other)
  | _ => .error .invalidEnvParam

mutual

/-- The tree walker, translated from the source resolve function: a
single-entry dict whose key is in OPS_SWITCH dispatches to the operator
handler with the argument as written; otherwise lists and tuples are
rebuilt as lists of recursively resolved elements (a Python list
comprehension always builds a list), dicts are rebuilt with each value
resolved, and scalars are returned unchanged.  The Nat argument is fuel:
the source recursion is unbounded and every recursive call here consumes
one unit. -/
def resolve : Nat → St → Value → Except Err (Value × St)
  | 0, _, _ => .error .fuelOut
  | n + 1, st, v =>
    match v with
    | .dict [(k, a)] =>
      if k = "$ref" then resolveRef n st a
      else if k = "$range" then resolveRange st a
      else if k = "$+" then resolveConcat n st a
      else if k = "$product" then resolveProduct n st a
      else if k = "$zip" then resolveZip n st a
      else if k = "$env" then resolveEnv st a
      else
        match resolveEntries n st [(k, a)] with
        | .error e => .error e
        | .ok (rs, st₁) => .ok (.dict rs, st₁)
    | .dict es =>
      match resolveEntries n st es with
      | .error e => .error e
      | .ok (rs, st₁) => .ok (.dict rs, st₁)
    | .list xs =>
      match resolveList n st xs with
      | .error e => .error e
      | .ok (rs, st₁) => .ok (.list rs, st₁)
    | .tuple xs =>
      match resolveList n st xs with
      | .error e => .error e
      | .ok (rs, st₁) => .ok (.list rs, st₁)
    | scalar => .ok (scalar, st)

/-- The ref operator, translated from the source: the key must be a
string (assert); the cache is consulted with dict get whose default is
None, so a cached None is indistinguishable from an absent entry; on a
miss, a key already in the resolving set raises the cycle error, and
otherwise the key is added to the resolving set, its toplevel entry is
resolved (recorded in the trace instrumentation), the key is removed
from the resolving set and the result is cached and returned. -/
def resolveRef : Nat → St → Value → Except Err (Value × St)
  | 0, _, _ => .error .fuelOut
  | n + 1, st, keyV =>
    match keyV with
    | .str key =>
      let value := (alookup key st.computed).getD Value.none
      if value.isNull then
        if key ∈ st.resolving then .error (.cycle key)
        else
          match topGet st.toplevel key with
          | .error e => .error e
          | .ok entry =>
            let st₁ : St :=
              { st with resolving := setAdd st.resolving key, trace := st.trace ++ [key] }
            match resolve n st₁ entry with
            | .error e => .error e
            | .ok (v, st₂) =>
              .ok (v, { st₂ with resolving := st₂.resolving.erase key,
                                 computed := aset key v st₂.computed })
      else .ok (value, st)
    | _ => .error .assertionFailed

/-- Resolution of the elements of a sequence in order, threading the
state left to right. -/
def resolveList : Nat → St → List Value → Except Err (List Value × St)
  | 0, _, _ => .error .fuelOut
  | _ + 1, st, [] => .ok ([], st)
  | n + 1, st, x :: xs =>
    match resolve n st x with
    | .error e => .error e
    | .ok (r, st₁) =>
      match resolveList n st₁ xs with
      | .error e => .error e
      | .ok (rs, st₂) => .ok (r :: rs, st₂)

/-- Resolution of the values of a dict in insertion order, keeping the
keys, threading the state left to right. -/
def resolveEntries : Nat → St → List (String × Value) → Except Err (List (String × Value) × St)
  | 0, _, _ => .error .fuelOut
  | _ + 1, st, [] => .ok ([], st)
  | n + 1, st, (k, x) :: es =>
    match resolve n st x with
    | .error e => .error e
    | .ok (r, st₁) =>
      match resolveEntries n st₁ es with
      | .error e => .error e
      | .ok (rs, st₂) => .ok ((k, r) :: rs, st₂)

/-- The source helper that maps resolve over a list-like and rebuilds a
sequence of the same concrete kind via the original constructor; the
assert rejects every other argument shape. -/
def mapListLike : Nat → St → Value → Except Err (Value × St)
  | 0, _, _ => .error .fuelOut
  | n + 1, st, v =>
    match v with
    | .list xs =>
      match resolveList n st xs with
      | .error e => .error e
      | .ok (rs, st₁) => .ok (.list rs, st₁)
    | .tuple xs =>
      match resolveList n st xs with
      | .error e => .error e
      | .ok (rs, st₁) => .ok (.tuple rs, st₁)
    | _ => .error .assertionFailed

/-- The concatenation operator: the argument must be list-like (both
source asserts collapse to AssertionError otherwise), every resolved
element must be iterable in the Python sense, and the result is their
one-level flattening rebuilt with the same constructor as the argument. -/
def resolveConcat : Nat → St → Value → Except Err (Value × St)
  | 0, _, _ => .error .fuelOut
  | n + 1, st, args =>
    match mapListLike n st args with
    | .error e => .error e
    | .ok (itemsV, st₁) =>
      let items := listElems itemsV
      if items.all isIterable then .ok (withElems itemsV (items.flatMap pyIterD), st₁)
      else .error .assertionFailed

/-- The product operator: the whole argument is resolved first; a
list-like resolved argument is mapped again and must be all lists or all
tuples, producing the cartesian product as a list of tuples; a dict
resolved argument has its values mapped again (as a tuple) and each must
be iterable, producing one output dict per combination, zipping the dict
keys against the combination; anything else raises the
invalid-argument exception. -/
def resolveProduct : Nat → St → Value → Except Err (Value × St)
  | 0, _, _ => .error .fuelOut
  | n + 1, st, args =>
    match resolve n st args with
    | .error e => .error e
    | .ok (args₁, st₁) =>
      if isListLike args₁ then
        match mapListLike n st₁ args₁ with
        | .error e => .error e
        | .ok (itemsV, st₂) =>
          let items := listElems itemsV
          if items.all isList || items.all isTuple then
            .ok (.list ((cartesian (items.map listElems)).map Value.tuple), st₂)
          else .error .assertionFailed
      else
        match args₁ with
        | .dict es =>
          match mapListLike n st₁ (.tuple (es.map Prod.snd)) with
          | .error e => .error e
          | .ok (valsV, st₂) =>
            let vals := listElems valsV
            if vals.all isIterable then
              .ok (.list ((cartesian (vals.map pyIterD)).map
                    (fun c => .dict ((es.map Prod.fst).zip c))), st₂)
            else .error .assertionFailed
        | _ => .error .invalidProduct

/-- The zip operator: the argument must be list-like (assert), its
resolved elements must be all lists or all tuples (assert), and the
result is the elementwise zip truncated to the shortest input, as a list
of tuples. -/
def resolveZip : Nat → St → Value → Except Err (Value × St)
  | 0, _, _ => .error .fuelOut
  | n + 1, st, args =>
    match seqElems args with
    | some xs =>
      match resolveList n st xs with
      | .error e => .error e
      | .ok (items, st₁) =>
        if items.all isList || items.all isTuple then
          .ok (.list ((zipN (items.map listElems)).map Value.tuple), st₁)
        else .error .assertionFailed
    | none => .error .assertionFailed

end

/-- The toplevel build entry point: the environment argument is combined
with Python truthiness (environment or os.environ.copy()), so an absent
or empty environment falls back to the process-environment snapshot,
passed here explicitly as osEnv; then the template is resolved against a
fresh state whose toplevel is the template itself. -/
def buildTemplateSt (fuel : Nat) (template : Value)
    (environment : Option (List (String × String))) (osEnv : List (String × String)) :
    Except Err (Value × St) :=
  let env := match environment with
    | some e => if e = [] then osEnv else e
    | none => osEnv
  resolve fuel ⟨template, [], [], env, []⟩ template

/-- The build entry point projected to its returned value. -/
def buildTemplateVal (fuel : Nat) (template : Value)
    (environment : Option (List (String × String))) (osEnv : List (String × String)) :
    Except Err Value :=
  (buildTemplateSt fuel template environment osEnv).map Prod.fst

/-- Python dict.update: existing keys of the base keep their position
and receive the value from the other dict, fresh keys of the other dict
are appended in its order. -/
def pyDictUpdate (base other : List (String × Value)) : List (String × Value) :=
  (base.map (fun e => (e.1, (alookup e.1 other).getD e.2))) ++
    other.filter (fun e => (alookup e.1 base).isNone)

/-- merge_templates: the first template object is destructively updated
with every later template via dict.update and the result is built.  The
in-place mutation is modelled by also returning the post-call contents
of the caller's template objects: the first element now holds the merged
mapping, the later elements are unchanged.  An empty input raises
IndexError on templates[0]. -/
def mergeTemplates (fuel : Nat) (templates : List (List (String × Value)))
    (environment : Option (List (String × String))) (osEnv : List (String × String)) :
    Except Err (Value × List (List (String × Value))) :=
  match templates with
  | [] => .error .indexError
  | base :: rest =>
    let merged := rest.foldl pyDictUpdate base
    match buildTemplateSt fuel (.dict merged) environment osEnv with
    | .error e => .error e
    | .ok (r, _) => .ok (r, merged :: rest)

/-- Shorthand for a ref operator node. -/
def refNode (k : String) : Value := .dict [("$ref", .str k)]

/-! Sanity checks mirroring the repository test suite. -/

example :
    buildTemplateVal 100
      (.dict [("a", .int 5), ("b", .str "hello"),
              ("c", .list [.str "hello", .str "world"]),
              ("d", .dict [("key", .dict [("orco", .list [.str "organized", .str "computing"])])])])
      none [] =
    .ok (.dict [("a", .int 5), ("b", .str "hello"),
                ("c", .list [.str "hello", .str "world"]),
                ("d", .dict [("key", .dict [("orco", .list [.str "organized", .str "computing"])])])]) :=
  rfl

example :
    buildTemplateVal 100
      (.dict [("a", .list [refNode "b", refNode "c"]), ("b", .str "hello"),
              ("c", .list [.str "hello", .str "world"])]) none [] =
    .ok (.dict [("a", .list [.str "hello", .list [.str "hello", .str "world"]]),
                ("b", .str "hello"), ("c", .list [.str "hello", .str "world"])]) :=
  rfl

example :
    buildTemplateVal 100
      (.dict [("a", .list [refNode "b", refNode "c"]), ("b", refNode "a"),
              ("c", .list [.str "hello", .str "world"])]) none [] =
    .error (.cycle "b") :=
  rfl

example :
    buildTemplateVal 100 (.dict [("$range", .int 5)]) none [] =
    .ok (.list [.int 0, .int 1, .int 2, .int 3, .int 4]) :=
  rfl

example :
    buildTemplateVal 100 (.dict [("$range", .list [.int 2, .int 5])]) none [] =
    .ok (.list [.int 2, .int 3, .int 4]) :=
  rfl

example :
    buildTemplateVal 100 (.dict [("$range", .list [.int 3, .int 40, .int 5])]) none [] =
    .ok (.list [.int 3, .int 8, .int 13, .int 18, .int 23, .int 28, .int 33, .int 38]) :=
  rfl

example :
    buildTemplateVal 100
      (.dict [("$+", .list [.list [.int 1, .int 2], .list [.int 3, .int 4]])]) none [] =
    .ok (.list [.int 1, .int 2, .int 3, .int 4]) :=
  rfl

example :
    buildTemplateVal 100
      (.dict [("a", .dict [("$+", .list [refNode "b", refNode "c", refNode "b",
                                         .list [.int 4, .int 5]])]),
              ("b", .list [.int 1, .int 2, .int 3]),
              ("c", .list [.int 4, .int 5, .int 6])]) none [] =
    .ok (.dict [("a", .list [.int 1, .int 2, .int 3, .int 4, .int 5, .int 6,
                             .int 1, .int 2, .int 3, .int 4, .int 5]),
                ("b", .list [.int 1, .int 2, .int 3]),
                ("c", .list [.int 4, .int 5, .int 6])]) :=
  rfl

example :
    buildTemplateVal 100
      (.dict [("$product", .list [.dict [("$range", .int 2)], .list [.int 3, .int 4]])])
      none [] =
    .ok (.list [.tuple [.int 0, .int 3], .tuple [.int 0, .int 4],
                .tuple [.int 1, .int 3], .tuple [.int 1, .int 4]]) :=
  rfl

example :
    buildTemplateVal 100
      (.dict [("b", .int 1),
              ("a", .dict [("$product",
                .dict [("a", .list [refNode "b", .int 2]),
                       ("b", .list [.str "a", .str "b"]),
                       ("c", .list [.int 4, .int 5])])])]) none [] =
    .ok (.dict [("b", .int 1),
                ("a", .list
                  [.dict [("a", .int 1), ("b", .str "a"), ("c", .int 4)],
                   .dict [("a", .int 1), ("b", .str "a"), ("c", .int 5)],
                   .dict [("a", .int 1), ("b", .str "b"), ("c", .int 4)],
                   .dict [("a", .int 1), ("b", .str "b"), ("c", .int 5)],
                   .dict [("a", .int 2), ("b", .str "a"), ("c", .int 4)],
                   .dict [("a", .int 2), ("b", .str "a"), ("c", .int 5)],
                   .dict [("a", .int 2), ("b", .str "b"), ("c", .int 4)],
                   .dict [("a", .int 2), ("b", .str "b"), ("c", .int 5)]])]) :=
  rfl

example :
    buildTemplateVal 100
      (.dict [("$product",
        .dict [("a", .dict [("$product", .dict [("x", .list [.int 1, .int 2]),
                                                ("y", .list [.int 3, .int 4])])]),
               ("b", .list [.str "a", .str "b"])])]) none [] =
    .ok (.list
      [.dict [("a", .dict [("x", .int 1), ("y", .int 3)]), ("b", .str "a")],
       .dict [("a", .dict [("x", .int 1), ("y", .int 3)]), ("b", .str "b")],
       .dict [("a", .dict [("x", .int 1), ("y", .int 4)]), ("b", .str "a")],
       .dict [("a", .dict [("x", .int 1), ("y", .int 4)]), ("b", .str "b")],
       .dict [("a", .dict [("x", .int 2), ("y", .int 3)]), ("b", .str "a")],
       .dict [("a", .dict [("x", .int 2), ("y", .int 3)]), ("b", .str "b")],
       .dict [("a", .dict [("x", .int 2), ("y", .int 4)]), ("b", .str "a")],
       .dict [("a", .dict [("x", .int 2), ("y", .int 4)]), ("b", .str "b")]]) :=
  rfl

/- The zip-inside-product template of the repository test suite.  Note:
the repository test expects the tuples of the zip result to survive,
for instance a value ("a", 1); the engine instead rebuilds them as
lists during the second resolution pass inside product, so the actual
output below differs from the expectation of that test. -/
example :
    buildTemplateVal 200
      (.dict [("$product",
        .dict [("a", .dict [("$zip", .list [.list [.str "a", .str "b", .str "c"],
                                            .list [.int 1, .int 2, .int 3]])]),
               ("b", .list [.str "a", .str "b"])])]) none [] =
    .ok (.list
      [.dict [("a", .list [.str "a", .int 1]), ("b", .str "a")],
       .dict [("a", .list [.str "a", .int 1]), ("b", .str "b")],
       .dict [("a", .list [.str "b", .int 2]), ("b", .str "a")],
       .dict [("a", .list [.str "b", .int 2]), ("b", .str "b")],
       .dict [("a", .list [.str "c", .int 3]), ("b", .str "a")],
       .dict [("a", .list [.str "c", .int 3]), ("b", .str "b")]]) :=
  rfl

example :
    buildTemplateVal 100 (.dict [("$env", .dict [("name", .str "FOO")])]) none [] =
    .error (.envKeyNotFound (.str "FOO")) :=
  rfl

example :
    buildTemplateVal 100
      (.dict [("$env", .dict [("name", .str "FOO"), ("default", .int 2)])]) none [] =
    .ok (.int 2) :=
  rfl

example :
    buildTemplateVal 100
      (.dict [("$env", .dict [("name", .str "FOO"), ("type", .str "int")])])
      (some [("FOO", "123")]) [] =
    .ok (.int 123) :=
  rfl

example :
    buildTemplateVal 100
      (.dict [("$env", .dict [("name", .str "FOO"), ("type", .str "int")])])
      none [("FOO", "1")] =
    .ok (.int 1) :=
  rfl

example :
    mergeTemplates 200
      [[("inputs", .list [.int 1, .int 2]),
        ("experiments", .dict [("$product",
          .dict [("inputs", refNode "inputs"), ("machines", refNode "machines")])])],
       [("machines", .list [.dict [("cpus", .int 4)]])]] none [] =
    .ok (.dict [("inputs", .list [.int 1, .int 2]),
                ("experiments", .list
                  [.dict [("inputs", .int 1), ("machines", .dict [("cpus", .int 4)])],
                   .dict [("inputs", .int 2), ("machines", .dict [("cpus", .int 4)])]]),
                ("machines", .list [.dict [("cpus", .int 4)]])],
         [[("inputs", .list [.int 1, .int 2]),
           ("experiments", .dict [("$product",
             .dict [("inputs", refNode "inputs"), ("machines", refNode "machines")])]),
           ("machines", .list [.dict [("cpus", .int 4)]])],
          [("machines", .list [.dict [("cpus", .int 4)]])]]) :=
  rfl

/-! Invariant machinery for the resolver. -/

/-- The key has a cached resolved value other than None (the cache hit
condition of the ref operator). -/
def nonNullCached (st : St) (k : String) : Prop :=
  ∃ v, alookup k st.computed = some v ∧ v ≠ Value.none

/-- How one resolver step may change the state: the read-only fields are
untouched, the resolving set is restored, non-null cache entries are
stable, and no key with a non-null cache entry is ever resolved again
(its trace count is unchanged). -/
structure Ext (st st' : St) : Prop where
  top : st'.toplevel = st.toplevel
  env : st'.environment = st.environment
  res : st'.resolving = st.resolving
  comp : ∀ k v, alookup k st.computed = some v → v ≠ Value.none →
    alookup k st'.computed = some v
  tr : ∀ k, nonNullCached st k → st'.trace.count k = st.trace.count k

theorem Ext.rfl (st : St) : Ext st st :=
  ⟨by rfl, by rfl, by rfl, fun _ _ h _ => h, fun _ _ => by rfl⟩

theorem Ext.trans {s₁ s₂ s₃ : St} (h₁ : Ext s₁ s₂) (h₂ : Ext s₂ s₃) : Ext s₁ s₃ := by
  refine ⟨h₂.top.trans h₁.top, h₂.env.trans h₁.env, h₂.res.trans h₁.res, ?_, ?_⟩
  · intro k v hk hv
    exact h₂.comp k v (h₁.comp k v hk hv) hv
  · intro k hk
    have hk₂ : nonNullCached s₂ k := by
      obtain ⟨v, hv, hne⟩ := hk
      exact ⟨v, h₁.comp k v hv hne, hne⟩
    exact (h₂.tr k hk₂).trans (h₁.tr k hk)

theorem isNull_iff {v : Value} : v.isNull = true ↔ v = Value.none := by
  cases v <;> simp [Value.isNull]

theorem alookup_aset_ne {k k₁ : String} (h : k₁ ≠ k) (v : Value) :
    ∀ c : List (String × Value), alookup k₁ (aset k v c) = alookup k₁ c := by
  intro c
  induction c with
  | nil =>
    have hk : ¬ k = k₁ := fun hh => h hh.symm
    simp [aset, alookup, hk]
  | cons e rest ih =>
    by_cases he : e.1 = k
    · simp only [aset, he, if_pos]
      have hk : ¬ k = k₁ := fun hh => h hh.symm
      simp [alookup, hk, he]
    · simp only [aset, he, if_neg, ite_false]
      by_cases he₁ : e.1 = k₁
      · simp [alookup, he₁]
      · simp [alookup, he₁, ih]

theorem resolveRange_state {st : St} {a r : Value} {st' : St}
    (h : resolveRange st a = .ok (r, st')) : st' = st := by
  unfold resolveRange at h
  repeat' split at h
  all_goals cases h
  all_goals rfl

theorem resolveEnv_state {st : St} {a r : Value} {st' : St}
    (h : resolveEnv st a = .ok (r, st')) : st' = st := by
  cases a with
  | str key =>
    simp only [resolveEnv] at h
    repeat' split at h
    all_goals cases h
    all_goals rfl
  | dict es =>
    simp only [resolveEnv] at h
    repeat' split at h
    all_goals cases h
    all_goals rfl
  | none => simp [resolveEnv] at h
  | bool b => simp [resolveEnv] at h
  | int m => simp [resolveEnv] at h
  | float q => simp [resolveEnv] at h
  | list xs => simp [resolveEnv] at h
  | tuple xs => simp [resolveEnv] at h

/-- The central invariant: every resolver function that returns
successfully performs an Ext step on the state. -/
theorem resolveExt : ∀ n : Nat,
    (∀ st v r st', resolve n st v = .ok (r, st') → Ext st st') ∧
    (∀ st v r st', resolveRef n st v = .ok (r, st') → Ext st st') ∧
    (∀ st xs rs st', resolveList n st xs = .ok (rs, st') → Ext st st') ∧
    (∀ st es rs st', resolveEntries n st es = .ok (rs, st') → Ext st st') ∧
    (∀ st v r st', mapListLike n st v = .ok (r, st') → Ext st st') ∧
    (∀ st v r st', resolveConcat n st v = .ok (r, st') → Ext st st') ∧
    (∀ st v r st', resolveProduct n st v = .ok (r, st') → Ext st st') ∧
    (∀ st v r st', resolveZip n st v = .ok (r, st') → Ext st st') := by
  intro n
  induction n with
  | zero =>
    refine ⟨?_, ?_, ?_, ?_, ?_, ?_, ?_, ?_⟩ <;>
      (intro st v r st' h; simp [resolve, resolveRef, resolveList, resolveEntries,
        mapListLike, resolveConcat, resolveProduct, resolveZip] at h)
  | succ n ih =>
    obtain ⟨ihResolve, ihRef, ihList, ihEntries, ihMap, ihConcat, ihProduct, ihZip⟩ := ih
    have hRef : ∀ st v r st', resolveRef (n + 1) st v = .ok (r, st') → Ext st st' := by
      intro st v r st' h
      cases v with
      | str key =>
        simp only [resolveRef] at h
        by_cases hnull : ((alookup key st.computed).getD Value.none).isNull = true
        · rw [if_pos hnull] at h
          by_cases hmem : key ∈ st.resolving
          · rw [if_pos hmem] at h
            cases h
          · rw [if_neg hmem] at h
            cases htop : topGet st.toplevel key with
            | error e =>
              simp only [htop] at h
              cases h
            | ok entry =>
              simp only [htop] at h
              split at h
              · cases h
              · rename_i v₂ st₂ hrec
                cases h
                have hext := ihResolve _ _ _ _ hrec
                have hne : ∀ k₁ v₁, alookup k₁ st.computed = some v₁ → v₁ ≠ Value.none →
                    k₁ ≠ key := by
                  intro k₁ v₁ hk₁ hv₁ hkey
                  subst hkey
                  rw [hk₁] at hnull
                  simp only [Option.getD_some] at hnull
                  exact hv₁ (isNull_iff.mp hnull)
                refine ⟨?_, ?_, ?_, ?_, ?_⟩
                · exact hext.top
                · exact hext.env
                · show st₂.resolving.erase key = st.resolving
                  have hres : st₂.resolving = setAdd st.resolving key := hext.res
                  rw [hres]
                  simp [setAdd, hmem]
                · intro k₁ v₁ hk₁ hv₁
                  have hkne := hne k₁ v₁ hk₁ hv₁
                  show alookup k₁ (aset key r st₂.computed) = some v₁
                  rw [alookup_aset_ne hkne]
                  exact hext.comp k₁ v₁ hk₁ hv₁
                · intro k₁ hk₁
                  obtain ⟨v₁, hv₁, hnev₁⟩ := hk₁
                  have hkne := hne k₁ v₁ hv₁ hnev₁
                  show st₂.trace.count k₁ = st.trace.count k₁
                  have htr := hext.tr k₁ ⟨v₁, hv₁, hnev₁⟩
                  rw [htr]
                  show (st.trace ++ [key]).count k₁ = st.trace.count k₁
                  rw [List.count_append]
                  have hc : [key].count k₁ = 0 := by
                    simp [List.count_cons, hkne]
                  omega
        · rw [if_neg hnull] at h
          cases h
          exact Ext.rfl st
      | none => simp [resolveRef] at h
      | bool b => simp [resolveRef] at h
      | int m => simp [resolveRef] at h
      | float q => simp [resolveRef] at h
      | list xs => simp [resolveRef] at h
      | tuple xs => simp [resolveRef] at h
      | dict es => simp [resolveRef] at h
    have hList : ∀ st xs rs st', resolveList (n + 1) st xs = .ok (rs, st') → Ext st st' := by
      intro st xs rs st' h
      cases xs with
      | nil =>
        simp only [resolveList] at h
        cases h
        exact Ext.rfl st
      | cons x rest =>
        simp only [resolveList] at h
        cases hx : resolve n st x with
        | error e => simp only [hx] at h; cases h
        | ok p =>
          obtain ⟨r₁, st₁⟩ := p
          simp only [hx] at h
          cases hrest : resolveList n st₁ rest with
          | error e => simp only [hrest] at h; cases h
          | ok q =>
            obtain ⟨rs₂, st₂⟩ := q
            simp only [hrest] at h
            cases h
            exact (ihResolve _ _ _ _ hx).trans (ihList _ _ _ _ hrest)
    have hEntries : ∀ st es rs st', resolveEntries (n + 1) st es = .ok (rs, st') →
        Ext st st' := by
      intro st es rs st' h
      cases es with
      | nil =>
        simp only [resolveEntries] at h
        cases h
        exact Ext.rfl st
      | cons e rest =>
        obtain ⟨k, x⟩ := e
        simp only [resolveEntries] at h
        cases hx : resolve n st x with
        | error e => simp only [hx] at h; cases h
        | ok p =>
          obtain ⟨r₁, st₁⟩ := p
          simp only [hx] at h
          cases hrest : resolveEntries n st₁ rest with
          | error e => simp only [hrest] at h; cases h
          | ok q =>
            obtain ⟨rs₂, st₂⟩ := q
            simp only [hrest] at h
            cases h
            exact (ihResolve _ _ _ _ hx).trans (ihEntries _ _ _ _ hrest)
    have hMap : ∀ st v r st', mapListLike (n + 1) st v = .ok (r, st') → Ext st st' := by
      intro st v r st' h
      cases v with
      | list xs =>
        simp only [mapListLike] at h
        split at h
        · cases h
        · rename_i hx
          cases h
          exact ihList _ _ _ _ hx
      | tuple xs =>
        simp only [mapListLike] at h
        split at h
        · cases h
        · rename_i hx
          cases h
          exact ihList _ _ _ _ hx
      | none => simp [mapListLike] at h
      | bool b => simp [mapListLike] at h
      | int m => simp [mapListLike] at h
      | float q => simp [mapListLike] at h
      | str s => simp [mapListLike] at h
      | dict es => simp [mapListLike] at h
    have hConcat : ∀ st v r st', resolveConcat (n + 1) st v = .ok (r, st') → Ext st st' := by
      intro st v r st' h
      simp only [resolveConcat] at h
      split at h
      · cases h
      · rename_i hm
        split at h
        · cases h
          exact ihMap _ _ _ _ hm
        · cases h
    have hProduct : ∀ st v r st', resolveProduct (n + 1) st v = .ok (r, st') → Ext st st' := by
      intro st v r st' h
      simp only [resolveProduct] at h
      split at h
      · cases h
      · rename_i hargs
        split at h
        · split at h
          · cases h
          · rename_i hm
            split at h
            · cases h
              exact (ihResolve _ _ _ _ hargs).trans (ihMap _ _ _ _ hm)
            · cases h
        · split at h
          · split at h
            · cases h
            · rename_i hm
              split at h
              · cases h
                exact (ihResolve _ _ _ _ hargs).trans (ihMap _ _ _ _ hm)
              · cases h
          · cases h
    have hZip : ∀ st v r st', resolveZip (n + 1) st v = .ok (r, st') → Ext st st' := by
      intro st v r st' h
      simp only [resolveZip] at h
      split at h
      · rename_i xs hseq
        split at h
        · cases h
        · rename_i hx
          split at h
          · cases h
            exact ihList _ _ _ _ hx
          · cases h
      · cases h
    have hResolve : ∀ st v r st', resolve (n + 1) st v = .ok (r, st') → Ext st st' := by
      intro st v r st' h
      cases v with
      | none => simp only [resolve] at h; cases h; exact Ext.rfl st
      | bool b => simp only [resolve] at h; cases h; exact Ext.rfl st
      | int m => simp only [resolve] at h; cases h; exact Ext.rfl st
      | float q => simp only [resolve] at h; cases h; exact Ext.rfl st
      | str s => simp only [resolve] at h; cases h; exact Ext.rfl st
      | list xs =>
        simp only [resolve] at h
        split at h
        · cases h
        · rename_i hx
          cases h
          exact ihList _ _ _ _ hx
      | tuple xs =>
        simp only [resolve] at h
        split at h
        · cases h
        · rename_i hx
          cases h
          exact ihList _ _ _ _ hx
      | dict es =>
        cases es with
        | nil =>
          simp only [resolve] at h
          split at h
          · cases h
          · rename_i hx
            cases h
            exact ihEntries _ _ _ _ hx
        | cons e rest =>
          obtain ⟨k, a⟩ := e
          cases rest with
          | cons e₂ rest₂ =>
            simp only [resolve] at h
            split at h
            · cases h
            · rename_i hx
              cases h
              exact ihEntries _ _ _ _ hx
          | nil =>
            simp only [resolve] at h
            split at h
            · exact ihRef _ _ _ _ h
            · split at h
              · have hst := resolveRange_state h
                subst hst
                exact Ext.rfl _
              · split at h
                · exact ihConcat _ _ _ _ h
                · split at h
                  · exact ihProduct _ _ _ _ h
                  · split at h
                    · exact ihZip _ _ _ _ h
                    · split at h
                      · have hst := resolveEnv_state h
                        subst hst
                        exact Ext.rfl _
                      · split at h
                        · cases h
                        · rename_i hx
                          cases h
                          exact ihEntries _ _ _ _ hx
    exact ⟨hResolve, hRef, hList, hEntries, hMap, hConcat, hProduct, hZip⟩

/-! Claim theorems. -/

/-- Claim C1, counterexample: in the template with a referencing b twice
and b bound to null, the underlying resolution of b is performed twice
(the trace records b twice), not exactly once: the cache stores null and
the cache probe uses a get whose default is None, so a null cached value
is indistinguishable from a cache miss. -/
theorem c1_counterexample :
    ((buildTemplateSt 100
        (.dict [("a", .list [refNode "b", refNode "b"]), ("b", Value.none)])
        none []).map (fun p => p.2.trace)) = .ok ["b", "b"] ∧
    (["b", "b"].count "b" ≠ 1) := by
  constructor
  · rfl
  · decide

/-- Claim C1 (amended): reference memoization holds for every toplevel
key whose resolved value is not null: a ref to a key cached with a
non-null value returns the cached value immediately with the state
unchanged, and no successful resolver step ever resolves such a key
again (its trace count is unchanged); a key resolving to null is
re-resolved on every reference.  On the specification example, c is
resolved exactly once (the trace is [b, c]) and a resolves to [5, 5]. -/
theorem c1_ref_memoization :
    (∀ (n : Nat) (st : St) (k : String) (v : Value),
        alookup k st.computed = some v → v ≠ Value.none →
        resolveRef (n + 1) st (.str k) = .ok (v, st)) ∧
    (∀ (n : Nat) (st : St) (t r : Value) (st' : St) (k : String),
        resolve n st t = .ok (r, st') → nonNullCached st k →
        st'.trace.count k = st.trace.count k) ∧
    ((buildTemplateSt 100
        (.dict [("a", .list [refNode "b", refNode "b"]), ("b", refNode "c"), ("c", .int 5)])
        none []).map (fun p => (p.1, p.2.trace)) =
      .ok (.dict [("a", .list [.int 5, .int 5]), ("b", .int 5), ("c", .int 5)], ["b", "c"])) := by
  refine ⟨?_, ?_, ?_⟩
  · intro n st k v hk hv
    have hnull : ¬ (v.isNull = true) := fun hh => hv (isNull_iff.mp hh)
    simp only [resolveRef, hk, Option.getD_some]
    rw [if_neg hnull]
  · intro n st t r st' k hres hk
    exact ((resolveExt n).1 st t r st' hres).tr k hk
  · rfl

/-- Witness for claim C1: a key cached with the non-null value 7 is
returned from the cache unchanged. -/
theorem c1_ref_memoization_witness :
    resolveRef 1 ⟨Value.none, [("k", Value.int 7)], [], [], []⟩ (Value.str "k") =
      .ok (Value.int 7, ⟨Value.none, [("k", Value.int 7)], [], [], []⟩) :=
  c1_ref_memoization.1 0 ⟨Value.none, [("k", Value.int 7)], [], [], []⟩ "k" (Value.int 7)
    (by rfl) (fun hh => by cases hh)

/-- Claim C2 (evaluation at the failing input): the tree walker rebuilds
every sequence node as a list, so the tuple-versus-list kind is not
preserved: resolving a tuple node yields the list of its resolved
elements; an operator-free template containing a tuple does not come
back structurally identical; and on the zip-inside-product template of
the repository test suite the engine produces list values where the
suite expects the zip tuples to be preserved. -/
theorem c2_walker_rebuilds_lists :
    (∀ (n : Nat) (st : St) (xs : List Value),
        resolve (n + 1) st (.tuple xs) =
          (resolveList n st xs).map (fun p => (Value.list p.1, p.2))) ∧
    (buildTemplateVal 10 (.tuple [.int 1]) none [] = .ok (.list [.int 1])) ∧
    (Value.list [Value.int 1] ≠ Value.tuple [Value.int 1]) ∧
    (buildTemplateVal 200
      (.dict [("$product",
        .dict [("a", .dict [("$zip", .list [.list [.str "a", .str "b", .str "c"],
                                            .list [.int 1, .int 2, .int 3]])]),
               ("b", .list [.str "a", .str "b"])])]) none [] =
    .ok (.list
      [.dict [("a", .list [.str "a", .int 1]), ("b", .str "a")],
       .dict [("a", .list [.str "a", .int 1]), ("b", .str "b")],
       .dict [("a", .list [.str "b", .int 2]), ("b", .str "a")],
       .dict [("a", .list [.str "b", .int 2]), ("b", .str "b")],
       .dict [("a", .list [.str "c", .int 3]), ("b", .str "a")],
       .dict [("a", .list [.str "c", .int 3]), ("b", .str "b")]])) := by
  refine ⟨?_, ?_, ?_, ?_⟩
  · intro n st xs
    simp only [resolve]
    cases resolveList n st xs with
    | error e => rfl
    | ok p => cases p; rfl
  · rfl
  · intro hh
    cases hh
  · rfl

/-- Claim C4: cycle detection is exact: any ref to a key that is still
in the resolving set (and has no non-null cached value, which is
automatic while its resolution is in progress) fails with the cycle
error naming that key; the message includes the key; a successful ref
restores the resolving set, so a key belongs to it exactly while its own
resolution is in progress; the two-key cycle of the specification fails
with a cycle error naming one of the cycling keys. -/
theorem c4_cycle_detection :
    (∀ (n : Nat) (st : St) (k : String),
        (alookup k st.computed).getD Value.none = Value.none → k ∈ st.resolving →
        resolveRef (n + 1) st (.str k) = .error (.cycle k)) ∧
    (∀ k : String, ∃ pre : String, errMessage (.cycle k) = pre ++ k) ∧
    (∀ (n : Nat) (st : St) (v r : Value) (st' : St),
        resolveRef n st v = .ok (r, st') → st'.resolving = st.resolving) ∧
    (buildTemplateVal 100
        (.dict [("a", .dict [("$ref", .str "b")]), ("b", .dict [("$ref", .str "a")])])
        none [] = .error (.cycle "b")) := by
  refine ⟨?_, ?_, ?_, ?_⟩
  · intro n st k hnull hmem
    have h1 : ((alookup k st.computed).getD Value.none).isNull = true := by
      rw [hnull]; rfl
    simp only [resolveRef]
    rw [if_pos h1, if_pos hmem]
  · intro k
    exact ⟨"Ref cycle detected: ", rfl⟩
  · intro n st v r st' h
    exact ((resolveExt n).2.1 st v r st' h).res
  · rfl

/-- Witness for claim C4: a ref to a key in the resolving set with an
empty cache fails with the cycle error for that key. -/
theorem c4_cycle_detection_witness :
    resolveRef 1 ⟨Value.none, [], ["x"], [], []⟩ (Value.str "x") = .error (.cycle "x") :=
  c4_cycle_detection.1 0 ⟨Value.none, [], ["x"], [], []⟩ "x" (by rfl) (by simp)

/-- Claim C3, counterexample: a concatenation element resolving to a
string or to a mapping does not fail with an invalid-argument error:
Python strings and dicts are Iterable, so a string element is flattened
into its characters and a mapping element into its keys. -/
theorem c3_counterexample :
    (buildTemplateVal 50 (.dict [("$+", .list [.list [.str "a"], .str "bc"])]) none [] =
      .ok (.list [.str "a", .str "b", .str "c"])) ∧
    (buildTemplateVal 50
        (.dict [("$+", .list [.list [.int 1], .dict [("x", .int 1), ("y", .int 2)]])]) none [] =
      .ok (.list [.int 1, .str "x", .str "y"])) := by
  exact ⟨rfl, rfl⟩

/-- Claim C3 (amended): concatenation fails (with an assertion error)
exactly when some element resolves to a value that is not iterable in
the Python sense, that is a number, float, boolean or null; strings and
mappings are iterable (a string iterates its characters, a mapping its
keys) and are flattened like sequences; when every resolved element is
iterable the output is the one-level flattening of their iteration
sequences, in input order. -/
theorem c3_concat_flatten :
    (∀ (n : Nat) (st : St) (xs items : List Value) (st₁ : St),
        resolveList n st xs = .ok (items, st₁) →
        resolveConcat (n + 2) st (.list xs) =
          (if items.all isIterable then .ok (.list (items.flatMap pyIterD), st₁)
           else .error .assertionFailed)) ∧
    (∀ v : Value, isIterable v = true ↔
      ((∃ s, v = .str s) ∨ (∃ xs, v = .list xs) ∨ (∃ xs, v = .tuple xs) ∨
        (∃ es, v = .dict es))) := by
  constructor
  · intro n st xs items st₁ h
    simp only [resolveConcat, mapListLike, h, listElems, seqElems, Option.getD_some, withElems]
  · intro v
    cases v <;> simp [isIterable, pyIter]

/-- Witness for claim C3: a concatenation whose second element resolves
to the non-iterable number 2 fails with the assertion error. -/
theorem c3_concat_flatten_witness :
    resolveConcat 7 ⟨Value.none, [], [], [], []⟩ (.list [.list [.int 1], .int 2]) =
      .error .assertionFailed := by
  have h := c3_concat_flatten.1 5 ⟨Value.none, [], [], [], []⟩ [.list [.int 1], .int 2]
      [.list [.int 1], .int 2] ⟨Value.none, [], [], [], []⟩ (by rfl)
  rw [h]
  rfl

/-- Claim C6, counterexample: a zip whose sub-templates each resolve to
a sequence but of different concrete kinds (here a list and, through an
env default, a tuple) does not produce the elementwise zip: the
all-lists-or-all-tuples assertion fails. -/
theorem c6_counterexample :
    buildTemplateVal 50
      (.dict [("$zip", .list [.list [.int 1, .int 2],
        .dict [("$env", .dict [("name", .str "X"),
                               ("default", .tuple [.int 3, .int 4])])]])])
      none [] = .error .assertionFailed := by
  rfl

/-- Claim C6 (amended): zip semantics hold when the resolved elements
all have the same concrete sequence kind (all lists or all tuples): the
output is the elementwise tuple-zip, whose length is the length of the
shortest input and whose i-th element collects the i-th element of every
input; the specification examples, including truncation, evaluate as
stated. -/
theorem c6_zip :
    (∀ (n : Nat) (st : St) (xs items : List Value) (st₁ : St) (ls : List (List Value)),
        resolveList n st xs = .ok (items, st₁) →
        (items = ls.map Value.list ∨ items = ls.map Value.tuple) →
        resolveZip (n + 1) st (.list xs) = .ok (.list ((zipN ls).map Value.tuple), st₁)) ∧
    (∀ ls : List (List Value), ls ≠ [] → (zipN ls).length = minLen ls) ∧
    (∀ (ls : List (List Value)) (i : Nat), i < minLen ls → ls ≠ [] →
        (zipN ls)[i]? = some (ls.map (fun l => l.getD i Value.none))) ∧
    (buildTemplateVal 50 (.dict [("$zip", .list [.list [.str "a", .str "b", .str "c"],
        .list [.int 1, .int 2, .int 3]])]) none [] =
      .ok (.list [.tuple [.str "a", .int 1], .tuple [.str "b", .int 2],
                  .tuple [.str "c", .int 3]])) ∧
    (buildTemplateVal 50 (.dict [("$zip", .list [.list [.int 1, .int 2, .int 3],
        .list [.int 4]])]) none [] = .ok (.list [.tuple [.int 1, .int 4]])) := by
  refine ⟨?_, ?_, ?_, ?_, ?_⟩
  · intro n st xs items st₁ ls h hkind
    simp only [resolveZip, seqElems, h]
    cases hkind with
    | inl hl =>
      subst hl
      have hall : ((ls.map Value.list).all isList || (ls.map Value.list).all isTuple) = true := by
        simp [List.all_map, Function.comp, isList]
      rw [if_pos hall]
      have hmap : (ls.map Value.list).map listElems = ls := by
        rw [List.map_map]
        have hid : listElems ∘ Value.list = id := by
          funext l
          simp [listElems, seqElems]
        rw [hid, List.map_id]
      rw [hmap]
    | inr hl =>
      subst hl
      have hall : ((ls.map Value.tuple).all isList || (ls.map Value.tuple).all isTuple) = true := by
        simp [List.all_map, Function.comp, isTuple]
      rw [if_pos hall]
      have hmap : (ls.map Value.tuple).map listElems = ls := by
        rw [List.map_map]
        have hid : listElems ∘ Value.tuple = id := by
          funext l
          simp [listElems, seqElems]
        rw [hid, List.map_id]
      rw [hmap]
  · intro ls hne
    cases ls with
    | nil => cases hne rfl
    | cons l rest => simp [zipN]
  · intro ls i hi hne
    cases ls with
    | nil => cases hne rfl
    | cons l rest =>
      simp only [zipN]
      rw [List.getElem?_map, List.getElem?_range hi]
      rfl
  · rfl
  · rfl

/-- Length of the cartesian product: the product of factor lengths. -/
theorem cartesian_length : ∀ ls : List (List Value),
    (cartesian ls).length = (ls.map List.length).prod := by
  intro ls
  induction ls with
  | nil => rfl
  | cons l rest ih =>
    simp only [List.map_cons, List.prod_cons]
    induction l with
    | nil => simp [cartesian]
    | cons x xs ihx =>
      simp only [cartesian] at ihx ⊢
      rw [List.flatMap_cons, List.length_append, List.length_map, ih, ihx, List.length_cons]
      ring

/-- Claim C5: product over a mapping: the whole argument is resolved
through the tree walker first, so operator nodes supplying the per-field
sequences are expanded; when the resolved argument is a mapping whose
re-resolved values are all iterable, the output is one mapping per
combination of the cartesian product of the per-field iteration
sequences, in key order with the last key varying fastest, each output
mapping zipping the input field names against one combination; the
cartesian product has one entry per combination; the two-by-two
specification example yields the four ordered mappings with the last key
varying fastest, and an operator node under a field is transparently
expanded. -/
theorem c5_product_mapping :
    (∀ (n : Nat) (st : St) (args : Value) (es : List (String × Value)) (st₁ : St)
        (vals : List Value) (st₂ : St),
        resolve n st args = .ok (.dict es, st₁) →
        mapListLike n st₁ (.tuple (es.map Prod.snd)) = .ok (.tuple vals, st₂) →
        vals.all isIterable = true →
        resolveProduct (n + 1) st args =
          .ok (.list ((cartesian (vals.map pyIterD)).map
                (fun c => .dict ((es.map Prod.fst).zip c))), st₂)) ∧
    (∀ ls : List (List Value), (cartesian ls).length = (ls.map List.length).prod) ∧
    (buildTemplateVal 100 (.dict [("$product", .dict [("x", .list [.int 1, .int 2]),
        ("y", .list [.int 3, .int 4])])]) none [] =
      .ok (.list [
        .dict [("x", .int 1), ("y", .int 3)],
        .dict [("x", .int 1), ("y", .int 4)],
        .dict [("x", .int 2), ("y", .int 3)],
        .dict [("x", .int 2), ("y", .int 4)]])) ∧
    (buildTemplateVal 100 (.dict [("$product",
        .dict [("a", .dict [("$+", .list [.list [.int 1], .list [.int 2]])]),
               ("b", .list [.int 3])])]) none [] =
      .ok (.list [.dict [("a", .int 1), ("b", .int 3)],
                  .dict [("a", .int 2), ("b", .int 3)]])) := by
  refine ⟨?_, cartesian_length, ?_, ?_⟩
  · intro n st args es st₁ vals st₂ h1 h2 hall
    simp only [resolveProduct, h1]
    have hnl : ¬ (isListLike (Value.dict es) = true) := by
      simp [isListLike, seqElems]
    rw [if_neg hnl]
    simp only [h2, listElems, seqElems, Option.getD_some]
    rw [if_pos hall]
  · rfl
  · rfl

/-- Witness for claim C5: a one-field mapping with a one-element list
produces the single combination mapping. -/
theorem c5_product_mapping_witness :
    resolveProduct 11 ⟨Value.none, [], [], [], []⟩ (.dict [("x", .list [.int 1])]) =
      .ok (.list [.dict [("x", .int 1)]], ⟨Value.none, [], [], [], []⟩) := by
  have h := c5_product_mapping.1 10 ⟨Value.none, [], [], [], []⟩
      (.dict [("x", .list [.int 1])]) [("x", .list [.int 1])] ⟨Value.none, [], [], [], []⟩
      [.list [.int 1]] ⟨Value.none, [], [], [], []⟩ (by rfl) (by rfl) (by rfl)
  rw [h]
  rfl

/-- Witness for claim C6: a zip of two lists evaluates to the truncated
elementwise zip. -/
theorem c6_zip_witness :
    resolveZip 6 ⟨Value.none, [], [], [], []⟩ (.list [.list [.int 1, .int 2], .list [.int 3]]) =
      .ok (.list [.tuple [.int 1, .int 3]], ⟨Value.none, [], [], [], []⟩) := by
  have h := c6_zip.1 5 ⟨Value.none, [], [], [], []⟩ [.list [.int 1, .int 2], .list [.int 3]]
      [.list [.int 1, .int 2], .list [.int 3]] ⟨Value.none, [], [], [], []⟩
      [[.int 1, .int 2], [.int 3]] (by rfl) (Or.inl (by rfl))
  rw [h]
  rfl

/-- Claim C7: env lookup and fallback: with the name present in the
argument mapping and the type field naming a known constructor, an
unknown type fails before any environment lookup (for every environment,
whether or not the name is present); an unhashable name propagates the
TypeError of the lookup itself; a name that is absent from the
environment map (the lookup succeeds and finds nothing) returns the
default when one was supplied and fails otherwise; a present name
(every present value is a string, including the empty string) has the
selected constructor applied to the raw value and the default plays no
part in the result; concretely, a present key with type int converts
the string, and a present empty-string value is converted rather than
replaced by the default. -/
theorem c7_env_lookup :
    (∀ (st : St) (es : List (String × Value)) (nameV : Value) (c : String),
        alookup "name" es = some nameV →
        (alookup "type" es).getD (Value.str "str") = Value.str c →
        ¬ c ∈ envTypes →
        resolveEnv st (.dict es) = .error (.unknownType (.str c))) ∧
    (∀ (st : St) (es : List (String × Value)) (nameV : Value) (c : String),
        alookup "name" es = some nameV →
        (alookup "type" es).getD (Value.str "str") = Value.str c →
        c ∈ envTypes →
        envGet st.environment nameV = .error .typeError →
        resolveEnv st (.dict es) = .error .typeError) ∧
    (∀ (st : St) (es : List (String × Value)) (nameV : Value) (c : String),
        alookup "name" es = some nameV →
        (alookup "type" es).getD (Value.str "str") = Value.str c →
        c ∈ envTypes →
        envGet st.environment nameV = .ok none →
        resolveEnv st (.dict es) =
          (if ((alookup "default" es).getD Value.none).isNull
           then .error (.envKeyNotFound nameV)
           else .ok ((alookup "default" es).getD Value.none, st))) ∧
    (∀ (st : St) (es : List (String × Value)) (nameV : Value) (c s : String),
        alookup "name" es = some nameV →
        (alookup "type" es).getD (Value.str "str") = Value.str c →
        c ∈ envTypes →
        envGet st.environment nameV = .ok (some s) →
        resolveEnv st (.dict es) =
          (match applyCtor c s with
           | .ok r => .ok (r, st)
           | .error e => .error e)) ∧
    (buildTemplateVal 50 (.dict [("$env", .dict [("name", .str "FOO"), ("type", .str "int")])])
        (some [("FOO", "123")]) [] = .ok (.int 123)) ∧
    (buildTemplateVal 50 (.dict [("$env", .dict [("name", .str "F"), ("default", .int 9)])])
        (some [("F", "")]) [] = .ok (.str "")) ∧
    (buildTemplateVal 50 (.dict [("$env", .dict [("name", .str "F"), ("type", .str "nope")])])
        (some [("F", "1")]) [] = .error (.unknownType (.str "nope"))) := by
  refine ⟨?_, ?_, ?_, ?_, ?_, ?_, ?_⟩
  · intro st es nameV c h1 h2 h3
    simp only [resolveEnv, h1, h2]
    rw [if_neg h3]
  · intro st es nameV c h1 h2 h3 h4
    simp only [resolveEnv, h1, h2]
    rw [if_pos h3]
    simp only [h4]
  · intro st es nameV c h1 h2 h3 h4
    simp only [resolveEnv, h1, h2]
    rw [if_pos h3]
    simp only [h4]
  · intro st es nameV c s h1 h2 h3 h4
    simp only [resolveEnv, h1, h2]
    rw [if_pos h3]
    simp only [h4]
  · rfl
  · rfl
  · rfl

/-- Witness for claim C7: a present key with type int converts the raw
string value through the int constructor. -/
theorem c7_env_lookup_witness :
    resolveEnv ⟨Value.none, [], [], [("FOO", "7")], []⟩
        (.dict [("name", .str "FOO"), ("type", .str "int")]) =
      .ok (.int 7, ⟨Value.none, [], [], [("FOO", "7")], []⟩) := by
  have h := c7_env_lookup.2.2.2.1 ⟨Value.none, [], [], [("FOO", "7")], []⟩
      [("name", .str "FOO"), ("type", .str "int")] (.str "FOO") "int" "7"
      (by rfl) (by rfl) (by decide) (by rfl)
  rw [h]
  rfl

/-- Claim C8: the build entry point combines its environment argument
with Python truthiness, so an explicitly supplied empty environment
mapping is not used: for every template and process-environment
snapshot, building with the empty mapping equals building with no
environment at all (both fall back to the snapshot); concretely, a
lookup of FOO succeeds from the snapshot even though the caller passed
an explicit empty environment. -/
theorem c8_empty_env_fallback :
    (∀ (fuel : Nat) (t : Value) (osEnv : List (String × String)),
        buildTemplateSt fuel t (some []) osEnv = buildTemplateSt fuel t none osEnv) ∧
    (buildTemplateVal 50 (.dict [("$env", .dict [("name", .str "FOO"), ("type", .str "int")])])
        (some []) [("FOO", "7")] = .ok (.int 7)) := by
  constructor
  · intro fuel t osEnv
    rfl
  · rfl

/-- Claim C10: when env falls back to the default (name absent from the
environment map in the sense that the lookup succeeds and finds
nothing, default supplied and not null), the default is returned
exactly as written: it is not resolved by the tree walker and not
converted by the type constructor (the conclusion returns the default
value itself, for any default including operator nodes, and env never
recurses into the walker); a default explicitly equal to null is
treated as no default, so the absent-name path fails; an unhashable
name never reaches the default fallback: the lookup raises TypeError
first; concretely, an operator-node default is returned unresolved even
with type int requested, an explicit null default fails with the
key-not-found error, and a list-valued name fails with TypeError
instead of returning its default 2. -/
theorem c10_env_default_raw :
    (∀ (st : St) (es : List (String × Value)) (nameV v : Value) (c : String),
        alookup "name" es = some nameV →
        (alookup "type" es).getD (Value.str "str") = Value.str c →
        c ∈ envTypes →
        envGet st.environment nameV = .ok none →
        alookup "default" es = some v → v ≠ Value.none →
        resolveEnv st (.dict es) = .ok (v, st)) ∧
    (∀ (st : St) (es : List (String × Value)) (nameV : Value) (c : String),
        alookup "name" es = some nameV →
        (alookup "type" es).getD (Value.str "str") = Value.str c →
        c ∈ envTypes →
        envGet st.environment nameV = .ok none →
        alookup "default" es = some Value.none →
        resolveEnv st (.dict es) = .error (.envKeyNotFound nameV)) ∧
    (∀ (st : St) (es : List (String × Value)) (nameV v : Value) (c : String),
        alookup "name" es = some nameV →
        (alookup "type" es).getD (Value.str "str") = Value.str c →
        c ∈ envTypes →
        envGet st.environment nameV = .error .typeError →
        alookup "default" es = some v →
        resolveEnv st (.dict es) = .error .typeError) ∧
    (buildTemplateVal 50 (.dict [("$env", .dict [("name", .str "X"), ("type", .str "int"),
        ("default", .dict [("$ref", .str "a")])])]) none [] =
      .ok (.dict [("$ref", .str "a")])) ∧
    (buildTemplateVal 50 (.dict [("$env", .dict [("name", .str "X"), ("default", Value.none)])])
        none [] = .error (.envKeyNotFound (.str "X"))) ∧
    (buildTemplateVal 50 (.dict [("$env", .dict [("name", .list []), ("default", .int 2)])])
        none [] = .error .typeError) := by
  refine ⟨?_, ?_, ?_, ?_, ?_, ?_⟩
  · intro st es nameV v c h1 h2 h3 h4 h5 h6
    simp only [resolveEnv, h1, h2]
    rw [if_pos h3]
    simp only [h4, h5, Option.getD_some]
    rw [if_neg (fun hh => h6 (isNull_iff.mp hh))]
  · intro st es nameV c h1 h2 h3 h4 h5
    simp only [resolveEnv, h1, h2]
    rw [if_pos h3]
    simp only [h4, h5, Option.getD_some]
    rw [if_pos (by rfl)]
  · intro st es nameV v c h1 h2 h3 h4 h5
    simp only [resolveEnv, h1, h2]
    rw [if_pos h3]
    simp only [h4]
  · rfl
  · rfl
  · rfl

/-- Witness for claim C10: with the name absent and default 3, the raw
default 3 is returned. -/
theorem c10_env_default_raw_witness :
    resolveEnv ⟨Value.none, [], [], [], []⟩
        (.dict [("name", .str "Z"), ("default", .int 3)]) =
      .ok (.int 3, ⟨Value.none, [], [], [], []⟩) := by
  have h := c10_env_default_raw.1 ⟨Value.none, [], [], [], []⟩
      [("name", .str "Z"), ("default", .int 3)] (.str "Z") (.int 3) "str"
      (by rfl) (by rfl) (by decide) (by rfl) (by rfl) (fun hh => by cases hh)
  exact h

/-- Association lookup distributes over append: the first list wins. -/
theorem alookup_append (k : String) (l₁ l₂ : List (String × Value)) :
    alookup k (l₁ ++ l₂) =
      (match alookup k l₁ with
       | some v => some v
       | none => alookup k l₂) := by
  induction l₁ with
  | nil => rfl
  | cons e rest ih =>
    by_cases he : e.1 = k
    · simp [alookup, he]
    · simp [alookup, he, ih]

/-- Lookup in the updated-in-place part of dict.update. -/
theorem alookup_updated (b t : List (String × Value)) (k : String) :
    alookup k (b.map (fun e => (e.1, (alookup e.1 t).getD e.2))) =
      (alookup k b).map (fun v => (alookup k t).getD v) := by
  induction b with
  | nil => rfl
  | cons e rest ih =>
    by_cases he : e.1 = k
    · subst he
      simp [alookup, ih]
    · simp [alookup, he, ih]

/-- Lookup in the appended part of dict.update: for a key absent from
the base, filtering out base keys does not affect the lookup. -/
theorem alookup_filtered (b t : List (String × Value)) (k : String)
    (hb : alookup k b = none) :
    alookup k (t.filter (fun e => (alookup e.1 b).isNone)) = alookup k t := by
  induction t with
  | nil => rfl
  | cons e rest ih =>
    by_cases he : e.1 = k
    · have hcond : (alookup e.1 b).isNone = true := by
        rw [he, hb]
        rfl
      rw [List.filter_cons, if_pos hcond]
      simp [alookup, he, ih]
    · by_cases hcond : (alookup e.1 b).isNone = true
      · rw [List.filter_cons, if_pos hcond]
        simp [alookup, he, ih]
      · rw [List.filter_cons, if_neg hcond]
        simp [alookup, he, ih]

/-- Claim C9: merge_templates destructively updates the first template
object: on success the post-call contents of the caller's template list
are the merged mapping in the first position (the fold of dict.update
over the later templates) with every later template unchanged; lookup
in the update gives the later mapping priority while keeping base-only
keys; concretely, merging two templates leaves the second input
unchanged, and the first input object now holds the merged mapping,
which differs from its original contents. -/
theorem c9_merge_mutates_first :
    (∀ (fuel : Nat) (base : List (String × Value)) (rest : List (List (String × Value)))
        (environment : Option (List (String × String))) (osEnv : List (String × String))
        (r : Value) (post : List (List (String × Value))),
        mergeTemplates fuel (base :: rest) environment osEnv = .ok (r, post) →
        post = (rest.foldl pyDictUpdate base) :: rest) ∧
    (∀ (b t : List (String × Value)) (k : String),
        alookup k (pyDictUpdate b t) =
          (match alookup k t with
           | some v => some v
           | none => alookup k b)) ∧
    (mergeTemplates 50 [[("a", .int 1), ("c", .int 5)], [("a", .int 2), ("b", .int 3)]]
        none [] =
      .ok (.dict [("a", .int 2), ("c", .int 5), ("b", .int 3)],
           [[("a", .int 2), ("c", .int 5), ("b", .int 3)], [("a", .int 2), ("b", .int 3)]])) ∧
    ([("a", Value.int 2), ("c", Value.int 5), ("b", Value.int 3)] ≠
      [("a", Value.int 1), ("c", Value.int 5)]) := by
  refine ⟨?_, ?_, ?_, ?_⟩
  · intro fuel base rest environment osEnv r post h
    simp only [mergeTemplates] at h
    cases hb : buildTemplateSt fuel (.dict (rest.foldl pyDictUpdate base)) environment osEnv with
    | error e =>
      simp only [hb] at h
      cases h
    | ok p =>
      simp only [hb] at h
      cases h
      rfl
  · intro b t k
    show alookup k (pyDictUpdate b t) = _
    unfold pyDictUpdate
    rw [alookup_append, alookup_updated]
    cases hb : alookup k b with
    | some v =>
      simp only [Option.map_some']
      cases ht : alookup k t with
      | some w => simp
      | none => simp [hb]
    | none =>
      simp only [Option.map_none']
      rw [alookup_filtered b t k hb]
      cases ht : alookup k t with
      | some w => simp
      | none => simp [hb]
  · rfl
  · intro hh
    cases hh

/-- Witness for claim C9: merging a one-key template over a base leaves
the post-call first object equal to the fold of dict.update. -/
theorem c9_merge_mutates_first_witness :
    ([[("a", Value.int 2)], [("a", Value.int 2)]] : List (List (String × Value))) =
      ([[("a", Value.int 2)]].foldl pyDictUpdate [("a", Value.int 1)]) ::
        [[("a", Value.int 2)]] :=
  c9_merge_mutates_first.1 10 [("a", Value.int 1)] [[("a", Value.int 2)]] none []
    (Value.dict [("a", Value.int 2)]) [[("a", Value.int 2)], [("a", Value.int 2)]] (by rfl)

end Cfggen
